import Mathlib

/-!
# Verification of the S3 image reconciliation engine

A shallow embedding of the key-derivation, variant-probing and
reconciliation logic of `s3_handler.py` and `main.py`, together with
theorems settling the specification's claims about it.

Strings are modelled at the character level (`List Char`); the Python
string operations used by the source (`str.find`, `str.lstrip`,
`os.path.splitext`, `urllib.parse.urlparse/quote/unquote`, …) are
reproduced faithfully for code points below 128, which covers the URL
and key domain of this program (Python's `quote`/`unquote` act on the
UTF-8 bytes, which coincide with code points in the ASCII range).
-/

deriving instance DecidableEq for Except

namespace ImgS3

/-! ## Python string primitives -/

/-- Python `str.find(sub)`: index of the first occurrence of `sub`
(`none` where Python returns `-1`). -/
def findSub (sub : List Char) : List Char → Option Nat
  | [] => if sub = [] then some 0 else none
  | c :: rest =>
    if sub.isPrefixOf (c :: rest) then some 0
    else (findSub sub rest).map (· + 1)

/-- Python `str.lstrip('/')`: drop every leading `/`. -/
def lstripSlash (l : List Char) : List Char := l.dropWhile (· = '/')

/-- Python `str.isspace` characters in the ASCII range: `\t\n\v\f\r`,
the file/group/record/unit separators `\x1c`–`\x1f`, and the space. -/
def pySpace (c : Char) : Bool :=
  (9 ≤ c.toNat && c.toNat ≤ 13) || (28 ≤ c.toNat && c.toNat ≤ 32)

/-- Python `str.strip()`: drop leading and trailing whitespace. -/
def pyStrip (l : List Char) : List Char :=
  ((l.dropWhile pySpace).reverse.dropWhile pySpace).reverse

/-- Python `str.upper()` of one character (ASCII, as in this program's data). -/
def pyUpperChar (c : Char) : Char := c.toUpper

/-- Python `str.upper()` (ASCII). -/
def pyUpper (l : List Char) : List Char := l.map pyUpperChar

/-- Python `str.lower()` of one character (ASCII). -/
def pyLowerChar (c : Char) : Char := c.toLower

/-- Python `str.lower()` (ASCII). -/
def pyLower (l : List Char) : List Char := l.map pyLowerChar

/-- Index of the last occurrence of `c` in `l` (Python `str.rfind`,
`none` where Python returns `-1`). -/
def rfindIdx (c : Char) (l : List Char) : Option Nat :=
  match (l.reverse).findIdx? (· = c) with
  | none => none
  | some j => some (l.length - 1 - j)

/-- `os.path.splitext` (posix): split off the extension at the last dot of
the last path component, unless every character of the component before
that dot is itself a dot. -/
def splitext (p : List Char) : List Char × List Char :=
  let sepIdx : Int := match rfindIdx '/' p with | none => -1 | some i => (i : Int)
  let dotIdx : Int := match rfindIdx '.' p with | none => -1 | some i => (i : Int)
  if sepIdx < dotIdx then
    let nameStart := (sepIdx + 1).toNat
    let mid := (p.drop nameStart).take (dotIdx.toNat - nameStart)
    if mid.any (· ≠ '.') then (p.take dotIdx.toNat, p.drop dotIdx.toNat)
    else (p, [])
  else (p, [])

/-- Python `sub in s` (substring containment). -/
def strContains (s sub : String) : Bool := (findSub sub.toList s.toList).isSome

/-- Python `s.startswith(pre)`. -/
def pyStartsWith (s pre : String) : Bool := pre.toList.isPrefixOf s.toList

/-! ## `urllib.parse.urlparse` path extraction

The subset of CPython's `urlparse` that determines the `path` attribute,
modelled after CPython 3.10: strip the leading WHATWG C0-control/space
characters and remove every tab, CR and LF; split off a lower-cased
`scheme:`, a `//netloc` (a netloc with unbalanced square brackets raises
`ValueError`, modelled as `none`), the fragment and the query; and, for
schemes that use parameters, split `;params` off the last path segment.
(The bracketed-host validation CPython 3.11 added is not modelled.) -/

/-- Characters CPython accepts inside a URL scheme. -/
def schemeChar (c : Char) : Bool :=
  c.isAlpha || c.isDigit || c = '+' || c = '-' || c = '.'

/-- WHATWG C0 control or space (code points up to U+0020). -/
def c0ControlOrSpace (c : Char) : Bool := c.toNat ≤ 0x20

/-- CPython `urlsplit` input sanitation: strip leading C0
controls/spaces, then remove every tab, CR and LF. -/
def sanitizeUrl (l : List Char) : List Char :=
  (l.dropWhile c0ControlOrSpace).filter fun c => !(c = '\t' || c = '\r' || c = '\n')

/-- Split off a leading `scheme:`: a first `:` at a positive index, a
leading ASCII letter, and only scheme characters before the colon.
Returns the lower-cased scheme (empty when absent) and the remainder. -/
def splitScheme (l : List Char) : List Char × List Char :=
  match l.findIdx? (· = ':') with
  | none => ([], l)
  | some i =>
    if 0 < i ∧ (l.headD ' ').isAlpha ∧ (l.take i).all schemeChar then
      (pyLower (l.take i), l.drop (i + 1))
    else ([], l)

/-- Drop a leading `//netloc` (which extends to the first `/`, `?` or
`#`, CPython `_splitnetloc`); `none` models the `ValueError` raised on a
netloc with unbalanced square brackets ("Invalid IPv6 URL"). -/
def splitNetloc (l : List Char) : Option (List Char) :=
  if ['/', '/'].isPrefixOf l then
    let rest := l.drop 2
    let stop := (rest.findIdx? fun c => c = '/' || c = '?' || c = '#').getD rest.length
    let netloc := rest.take stop
    if (netloc.contains '[' && !netloc.contains ']') ||
        (netloc.contains ']' && !netloc.contains '[') then none
    else some (rest.drop stop)
  else some l

/-- The schemes for which `urlparse` splits `;params` off the path
(CPython `uses_params`, the empty scheme included). -/
def uses_params : List (List Char) :=
  [[], "ftp".toList, "hdl".toList, "prospero".toList, "http".toList,
   "imap".toList, "https".toList, "shttp".toList, "rtsp".toList,
   "rtspu".toList, "sip".toList, "sips".toList, "mms".toList,
   "sftp".toList, "tel".toList]

/-- CPython `_splitparams`: drop `;params`, splitting at the first `;`
of the last path segment (no split when the last segment has none). -/
def splitparams (p : List Char) : List Char :=
  if p.contains '/' then
    match rfindIdx '/' p with
    | none => p
    | some s =>
      match (p.drop s).findIdx? (· = ';') with
      | none => p
      | some j => p.take (s + j)
  else
    match p.findIdx? (· = ';') with
    | none => p
    | some i => p.take i

/-- The `path` attribute of `urlparse`: sanitize, then split scheme,
netloc, fragment and query in CPython's order, then `;params` when the
scheme uses them; `none` models a raised `ValueError`. -/
def urlparsePath (l : List Char) : Option (List Char) :=
  let l0 := sanitizeUrl l
  let sch := (splitScheme l0).1
  match splitNetloc (splitScheme l0).2 with
  | none => none
  | some l2 =>
    let path := (l2.takeWhile (· ≠ '#')).takeWhile (· ≠ '?')
    if sch ∈ uses_params ∧ path.contains ';' then some (splitparams path)
    else some path

/-! ## `urllib.parse.quote` / `unquote` (ASCII-faithful) -/

/-- The characters `quote` never escapes (letters, digits, `_.-~`). -/
def alwaysSafe (c : Char) : Bool :=
  c.isAlpha || c.isDigit || c = '_' || c = '.' || c = '-' || c = '~'

/-- Upper-case hex digit of a value below 16. -/
def hexUpper (n : Nat) : Char :=
  if n < 10 then Char.ofNat ('0'.toNat + n) else Char.ofNat ('A'.toNat + n - 10)

/-- `urllib.parse.quote(s, safe='/')` on one character. -/
def quoteChar (c : Char) : List Char :=
  if alwaysSafe c || c = '/' then [c]
  else ['%', hexUpper (c.toNat / 16 % 16), hexUpper (c.toNat % 16)]

/-- `urllib.parse.quote(s, safe='/')`: percent-encode every character that
is neither always-safe nor `/`. -/
def quoteSlashList (l : List Char) : List Char := l.flatMap quoteChar

/-- Value of a hex digit, lower or upper case. -/
def hexVal (c : Char) : Option Nat :=
  if '0' ≤ c ∧ c ≤ '9' then some (c.toNat - '0'.toNat)
  else if 'a' ≤ c ∧ c ≤ 'f' then some (c.toNat - 'a'.toNat + 10)
  else if 'A' ≤ c ∧ c ≤ 'F' then some (c.toNat - 'A'.toNat + 10)
  else none

/-- `urllib.parse.unquote`: decode `%XX` escapes; a `%` not followed by two
hex digits stays literal. -/
def unquoteList : List Char → List Char
  | [] => []
  | '%' :: a :: b :: rest2 =>
    match hexVal a, hexVal b with
    | some x, some y => Char.ofNat (16 * x + y) :: unquoteList rest2
    | _, _ => '%' :: unquoteList (a :: b :: rest2)
  | c :: rest => c :: unquoteList rest

/-- String-level `quote(·, safe='/')`. -/
def quoteSlash (s : String) : String := String.mk (quoteSlashList s.toList)

/-- String-level `unquote`. -/
def unquoteStr (s : String) : String := String.mk (unquoteList s.toList)

/-! ## `S3Handler.extract_s3_path` and `S3Handler.generate_s3_key` -/

/-- The recognized image extensions of `generate_s3_key`
(`['.png', '.jpeg', '.jpg', '.gif', '.webp']`). -/
def imageExts : List (List Char) :=
  [".png".toList, ".jpeg".toList, ".jpg".toList, ".gif".toList, ".webp".toList]

/-- The anchor substring `'/wp-content/'`. -/
def wpAnchor : List Char := "/wp-content/".toList

/-- `S3Handler.extract_s3_path`: the URL's path component, leading
slashes stripped; `.error` carries the message of the `ValueError`
raised on an empty/blank URL or by `urlparse` itself. -/
def extract_s3_path_l (url : List Char) : Except String (List Char) :=
  if pyStrip url = [] then .error "Empty or invalid URL"
  else
    match urlparsePath url with
    | none => .error "Invalid IPv6 URL"
    | some path => .ok (lstripSlash path)

/-- `S3Handler.generate_s3_key` at the character-list level: the
`'/wp-content/'` anchor branch, else the full-path branch with the
extension normalized to `.jpg` when recognized. `.error` models the
raised `ValueError`. -/
def generate_s3_key_l (url : List Char) : Except String (List Char) :=
  match findSub wpAnchor url with
  | some i =>
    let keyPath := url.drop i
    let base := (splitext keyPath).1
    .ok (lstripSlash base ++ ".jpg".toList)
  | none =>
    match extract_s3_path_l url with
    | .error e => .error e
    | .ok path =>
      let base := (splitext path).1
      let ext := (splitext path).2
      if pyLower ext ∈ imageExts then .ok (base ++ ".jpg".toList)
      else .ok path

/-- `S3Handler.generate_s3_key` on strings. -/
def generate_s3_key (url : String) : Except String String :=
  (generate_s3_key_l url.toList).map String.mk

/-! ## The existence/accessibility probe
(`S3Handler.check_s3_object_exists_and_accessible`)

The store and HTTP collaborators (`head_object`, `requests.head`,
`process_image_from_url`, `upload_to_s3`) are primitives; they are
modelled as oracles, with exceptional outcomes made explicit exactly
where the source catches them. -/

/-- The settings of `cli.Config` the core logic reads. -/
structure Config where
  bucket_name : String
  aws_region : String
  dry_run : Bool
  debug_save : Bool
deriving DecidableEq

/-- Outcome of a `head_object` call as the source distinguishes them:
success, a `ClientError` carrying a numeric code (404 means try the next
variant), or any other exception. -/
inductive HeadRes where
  | ok
  | clientError (code : Nat)
  | exc
deriving DecidableEq

/-- Outcome of a `requests.head` call: a status code, a
`requests.RequestException`, or any other exception. -/
inductive HttpRes where
  | status (code : Nat)
  | reqExc
  | exc
deriving DecidableEq

/-- The observable state of the object store and public endpoint during
one probe: what `head_object` and `requests.head` return. -/
structure S3World where
  head : String → HeadRes
  http : String → HttpRes

/-- `S3Handler.get_s3_url`:
`https://{bucket}.s3.{region}.amazonaws.com/{quote(key, safe='/')}`. -/
def get_s3_url (cfg : Config) (s3_key : String) : String :=
  "https://" ++ cfg.bucket_name ++ ".s3." ++ cfg.aws_region ++
    ".amazonaws.com/" ++ quoteSlash s3_key

/-- Duplicate removal keeping the first occurrence (the `seen` set /
`unique_variations` loop of the source). -/
def dedupSeen (seen : List String) : List String → List String
  | [] => []
  | k :: rest =>
    if k ∈ seen then dedupSeen seen rest
    else k :: dedupSeen (k :: seen) rest

/-- The encoding variants the probe tries, in order: the key as given,
its `unquote`, its `quote(·, safe='/')`, duplicates removed keeping the
first occurrence. -/
def uniqueVariations (s3_key : String) : List String :=
  dedupSeen [] [s3_key, unquoteStr s3_key, quoteSlash s3_key]

/-- The result tuple of `check_s3_object_exists_and_accessible`:
`(needs_upload, status_code, status_message, actual_s3_key_found)`. -/
structure CheckResult where
  needs_upload : Bool
  status_code : Nat
  status_message : String
  actual_key : String
deriving DecidableEq

/-- One iteration of the variant loop: `none` means "404 from
`head_object`, try the next variant"; `some r` is a conclusive result. -/
def tryVariation (cfg : Config) (w : S3World) (attempt_key : String) :
    Option CheckResult :=
  match w.head attempt_key with
  | .ok =>
    match w.http (get_s3_url cfg attempt_key) with
    | .status n =>
      if n = 200 then some ⟨false, 200, "EXISTS_ACCESSIBLE", attempt_key⟩
      else if n = 403 then some ⟨true, 403, "EXISTS_403_REUPLOAD", attempt_key⟩
      else some ⟨true, n, "EXISTS_" ++ toString n ++ "_REUPLOAD", attempt_key⟩
    | .reqExc => some ⟨true, 0, "ACCESS_TEST_ERROR", attempt_key⟩
    | .exc => some ⟨true, 0, "UNKNOWN_ERROR", attempt_key⟩
  | .clientError code =>
    if code = 404 then none
    else some ⟨true, code, "S3_ERROR_" ++ toString code, attempt_key⟩
  | .exc => some ⟨true, 0, "UNKNOWN_ERROR", attempt_key⟩

/-- The variant loop, also recording which variants were probed (i.e. on
which keys `head_object` was called). -/
def checkLoop (cfg : Config) (w : S3World) :
    List String → List String × Option CheckResult
  | [] => ([], none)
  | k :: rest =>
    match tryVariation cfg w k with
    | some r => ([k], some r)
    | none => (k :: (checkLoop cfg w rest).1, (checkLoop cfg w rest).2)

/-- `S3Handler.check_s3_object_exists_and_accessible`: try each encoding
variant in order; when none is found, `(True, 404, "NOT_EXISTS", s3_key)`.
Returns the result together with the list of variants probed. -/
def check_s3_object_exists_and_accessible (cfg : Config) (w : S3World)
    (s3_key : String) : CheckResult × List String :=
  ((checkLoop cfg w (uniqueVariations s3_key)).2.getD ⟨true, 404, "NOT_EXISTS", s3_key⟩,
   (checkLoop cfg w (uniqueVariations s3_key)).1)

/-! ## The per-item decision (`main.process_single_image`) -/

/-- The per-row record the driver writes back:
`(s3_key, status, s3_url, response_code)`. -/
structure Outcome where
  s3_key : String
  status : String
  s3_url : String
  response_code : Nat
deriving DecidableEq

/-- The collaborator calls an item made: `process_image_from_url`
invocations (each downloads and normalizes), `upload_to_s3` target keys,
and the keys passed to `check_s3_object_exists_and_accessible`. -/
structure Effects where
  fetchCalls : List String
  uploadCalls : List String
  probeCalls : List String
deriving DecidableEq

/-- The environment one item runs against: the store/HTTP state before
any upload, the fetch-and-normalize collaborator (`.error` models a
raised exception), and the upload collaborator, which on success yields
the store state after the upload. -/
structure ProcEnv where
  world : S3World
  fetch : String → Except String Nat
  upload : String → Nat → Except String S3World

/-- The body of `process_single_image` up to its `try`/`except`: either a
raised exception's message, or the returned tuple; paired with the
collaborator calls made. -/
def processCore (cfg : Config) (env : ProcEnv) (url : String) :
    Except String Outcome × Effects :=
  match generate_s3_key url with
  | .error e => (.error e, ⟨[], [], []⟩)
  | .ok s3_key =>
    let chk := (check_s3_object_exists_and_accessible cfg env.world s3_key).1
    if chk.needs_upload = false then
      (.ok ⟨chk.actual_key, "EXISTS_OK", get_s3_url cfg chk.actual_key,
          chk.status_code⟩,
        ⟨[], [], [s3_key]⟩)
    else
      let uploadKey := chk.actual_key
      let uploadUrl := get_s3_url cfg uploadKey
      if cfg.dry_run then
        (.ok ⟨uploadKey, "WOULD_UPLOAD_" ++ chk.status_message, uploadUrl,
            chk.status_code⟩,
          ⟨[], [], [s3_key]⟩)
      else
        match env.fetch url with
        | .error e => (.error e, ⟨[url], [], [s3_key]⟩)
        | .ok img =>
          match env.upload uploadKey img with
          | .error e => (.error e, ⟨[url], [uploadKey], [s3_key]⟩)
          | .ok world2 =>
            let v := (check_s3_object_exists_and_accessible cfg world2 uploadKey).1
            if v.needs_upload = false ∧ v.status_code = 200 then
              (.ok ⟨uploadKey, "UPLOADED_OK", uploadUrl, v.status_code⟩,
                ⟨[url], [uploadKey], [s3_key, uploadKey]⟩)
            else
              (.ok ⟨uploadKey,
                  "UPLOADED_VERIFY_FAIL_" ++ toString v.status_code,
                  uploadUrl, v.status_code⟩,
                ⟨[url], [uploadKey], [s3_key, uploadKey]⟩)

/-- `main.process_single_image`: the body above wrapped in its
`try`/`except`, which turns any exception into
`("", "ERROR: {e}", "", 0)`. -/
def process_single_image (cfg : Config) (env : ProcEnv) (url : String) :
    Outcome × Effects :=
  match (processCore cfg env url).1 with
  | .ok o => (o, (processCore cfg env url).2)
  | .error e => (⟨"", "ERROR: " ++ e, "", 0⟩, (processCore cfg env url).2)

/-! ## The driver loop (`main.main`) -/

/-- The placeholder markers the driver skips
(`['PENDING', 'N/A', 'NA', 'NULL', '']` after `strip().upper()`). -/
def placeholders : List (List Char) :=
  ["PENDING".toList, "N/A".toList, "NA".toList, "NULL".toList, []]

/-- A row's URL cell: `none` models a missing value (`pd.isna`). -/
def isSkipRow : Option String → Bool
  | none => true
  | some url => pyUpper (pyStrip url.toList) ∈ placeholders

/-- The outcome written for a skipped row. -/
def skipOutcome : Outcome := ⟨"", "SKIPPED_INVALID_URL", "", 0⟩

/-- One row of the driver loop. -/
def processRow (cfg : Config) (env : ProcEnv) (row : Option String) : Outcome :=
  match row with
  | none => skipOutcome
  | some url =>
    if isSkipRow (some url) then skipOutcome
    else (process_single_image cfg env url).1

/-- The four aggregate counters of `main.main`. -/
structure Counters where
  uploadedCount : Nat
  existsCount : Nat
  reuploadCount : Nat
  errorCount : Nat
deriving DecidableEq

/-- The status classification the driver applies to a processed
(non-skipped) row's status label. -/
def countRow (status : String) (c : Counters) : Counters :=
  if pyStartsWith status "UPLOADED" || pyStartsWith status "WOULD_UPLOAD" then
    if pyStartsWith status "WOULD_UPLOAD_EXISTS_403" ||
        (pyStartsWith status "UPLOADED" && strContains status "403") then
      { c with reuploadCount := c.reuploadCount + 1 }
    else
      { c with uploadedCount := c.uploadedCount + 1 }
  else if status = "EXISTS_OK" then
    { c with existsCount := c.existsCount + 1 }
  else
    { c with errorCount := c.errorCount + 1 }

/-- The driver loop over the rows: each row yields exactly one outcome
and bumps exactly one counter; a skipped row is counted as an error. The
per-row environment is indexed by the row's position, reflecting that
earlier uploads may have changed the store. -/
def mainLoop (cfg : Config) (env : Nat → ProcEnv) :
    Nat → List (Option String) → List Outcome × Counters
  | _, [] => ([], ⟨0, 0, 0, 0⟩)
  | i, row :: rest =>
    (processRow cfg (env i) row :: (mainLoop cfg env (i + 1) rest).1,
     if isSkipRow row then
       { (mainLoop cfg env (i + 1) rest).2 with
         errorCount := (mainLoop cfg env (i + 1) rest).2.errorCount + 1 }
     else countRow (processRow cfg (env i) row).status (mainLoop cfg env (i + 1) rest).2)

/-! ## Concrete fixtures

Small closed configurations and worlds used to instantiate the theorems
at concrete inputs. -/

/-- A dry-run configuration. -/
def cfgDry : Config := ⟨"b", "r", true, false⟩

/-- A live-upload configuration. -/
def cfgLive : Config := ⟨"b", "r", false, false⟩

/-- A store holding exactly the object `a%20b`, publicly reachable. -/
def wEnc : S3World :=
  ⟨fun k => if k = "a%20b" then .ok else .clientError 404, fun _ => .status 200⟩

/-- A store holding exactly the object `a%20b.jpg`, publicly reachable. -/
def wEncJpg : S3World :=
  ⟨fun k => if k = "a%20b.jpg" then .ok else .clientError 404, fun _ => .status 200⟩

/-- An empty store: every metadata lookup answers 404. -/
def wEmpty : S3World := ⟨fun _ => .clientError 404, fun _ => .status 200⟩

/-- A store where every object exists and is publicly reachable. -/
def wFull : S3World := ⟨fun _ => .ok, fun _ => .status 200⟩

/-- A store where every object exists but the public check answers 403. -/
def wBlocked : S3World := ⟨fun _ => .ok, fun _ => .status 403⟩

/-- Environment for an item whose object already exists under the
percent-encoded variant; fetch and upload would fail if ever called. -/
def envAcc : ProcEnv := ⟨wEncJpg, fun _ => .error "no fetch", fun _ _ => .error "no upload"⟩

/-- Environment for a live upload of a missing object: fetch succeeds,
the upload succeeds and afterwards the store serves everything. -/
def envLiveOk : ProcEnv := ⟨wEmpty, fun _ => .ok 1, fun _ _ => .ok wFull⟩

/-- Environment where the object exists but the public check answers
403; fetch and upload would fail if ever called. -/
def envBlocked : ProcEnv := ⟨wBlocked, fun _ => .error "no fetch", fun _ _ => .error "no upload"⟩

/-! # Theorems -/

/-! ## Helper lemmas -/

/-- `splitext` splits its argument: base and extension concatenate back
to the input. -/
theorem splitext_append (p : List Char) :
    (splitext p).1 ++ (splitext p).2 = p := by
  unfold splitext
  dsimp only
  split
  · split
    · exact List.take_append_drop _ _
    · simp
  · simp

/-- The dedup loop keeps the first occurrence of each key: explicit
characterization on the three-element input list. -/
theorem dedupSeen_three (a b c : String) :
    dedupSeen [] [a, b, c] =
      a :: ((if b = a then [] else [b]) ++
        (if c = a ∨ c = b then [] else [c])) := by
  by_cases h1 : b = a <;> by_cases h2 : c = a <;> by_cases h3 : c = b <;>
    simp [dedupSeen, h1, h2, h3]

/-- The dedup loop yields a duplicate-free list, none of whose elements
was already seen. -/
theorem dedupSeen_sound (l : List String) :
    ∀ seen, (dedupSeen seen l).Nodup ∧ ∀ x ∈ dedupSeen seen l, x ∉ seen := by
  induction l with
  | nil => intro seen; simp [dedupSeen]
  | cons k rest ih =>
    intro seen
    by_cases hk : k ∈ seen
    · simpa [dedupSeen, hk] using ih seen
    · simp only [dedupSeen, if_neg hk]
      obtain ⟨hnd, hmem⟩ := ih (k :: seen)
      refine ⟨List.nodup_cons.2 ⟨fun hkm => (hmem k hkm) (List.mem_cons_self _ _), hnd⟩, ?_⟩
      intro x hx
      rcases List.mem_cons.1 hx with rfl | hx'
      · exact hk
      · exact fun hxs => (hmem x hx') (List.mem_cons_of_mem _ hxs)

/-! ## C6 — the variant sequence -/

/-- C6: for every key, the variant sequence starts with the original key,
consists in order of the key as given, its percent-decoded form and its
percent-encoded form (`/` left unescaped) with duplicates removed keeping
the first occurrence, and contains no duplicates. -/
theorem c6_variant_sequence (key : String) :
    uniqueVariations key =
      key :: ((if unquoteStr key = key then [] else [unquoteStr key]) ++
        (if quoteSlash key = key ∨ quoteSlash key = unquoteStr key then []
         else [quoteSlash key]))
    ∧ (uniqueVariations key).head? = some key
    ∧ (uniqueVariations key).Nodup := by
  have h := dedupSeen_three key (unquoteStr key) (quoteSlash key)
  refine ⟨h, ?_, ?_⟩
  · rw [uniqueVariations, h]; rfl
  · exact (dedupSeen_sound _ []).1

/-! ## C2 — key derivation with the `/wp-content/` anchor -/

/-- C2 (counterexample): for the URL
`https://site/x/wp-content/uploads/img.PNG` the derived key is *not*
`uploads/img.jpg` (the code strips only leading slashes, so the
`wp-content/` segment is kept). -/
theorem c2_counterexample :
    generate_s3_key "https://site/x/wp-content/uploads/img.PNG" ≠
      Except.ok "uploads/img.jpg" := by decide

/-- C2 (amended): for every URL containing the `/wp-content/` anchor,
key derivation takes the substring from the anchor to the end of the URL,
strips the existing filename extension and appends exactly one `.jpg`,
stripping only the leading slash — so the anchor's `wp-content/` segment
is retained, and the scenario URL derives to `wp-content/uploads/img.jpg`. -/
theorem c2_anchor_key (url : String) (i : Nat)
    (h : findSub wpAnchor url.toList = some i) :
    (splitext (url.toList.drop i)).1 ++ (splitext (url.toList.drop i)).2 =
      url.toList.drop i
    ∧ generate_s3_key_l url.toList =
        Except.ok (lstripSlash (splitext (url.toList.drop i)).1 ++ ".jpg".toList)
    ∧ generate_s3_key "https://site/x/wp-content/uploads/img.PNG" =
        Except.ok "wp-content/uploads/img.jpg" := by
  refine ⟨splitext_append _, ?_, by decide⟩
  simp only [generate_s3_key_l, h]

/-- C2 (witness): the amended theorem applied to the scenario URL, whose
anchor sits at index 14. -/
theorem c2_anchor_key_witness :
    (splitext ("https://site/x/wp-content/uploads/img.PNG".toList.drop 14)).1 ++
        (splitext ("https://site/x/wp-content/uploads/img.PNG".toList.drop 14)).2 =
      "https://site/x/wp-content/uploads/img.PNG".toList.drop 14
    ∧ generate_s3_key_l "https://site/x/wp-content/uploads/img.PNG".toList =
        Except.ok (lstripSlash (splitext ("https://site/x/wp-content/uploads/img.PNG".toList.drop 14)).1 ++
            ".jpg".toList)
    ∧ generate_s3_key "https://site/x/wp-content/uploads/img.PNG" =
        Except.ok "wp-content/uploads/img.jpg" :=
  c2_anchor_key "https://site/x/wp-content/uploads/img.PNG" 14 (by decide)

/-! ## C7 — key derivation without the anchor -/

/-- C7: for every non-blank URL without the `/wp-content/` anchor on
which `urlparse` yields a path `p` (rather than raising), the derived key
is that path component with leading slashes stripped; when the path's
lower-cased extension is one of `.png/.jpeg/.jpg/.gif/.webp`, only the
extension is replaced by `.jpg` (the base, which concatenated with the
extension gives back the whole path, is preserved); otherwise the path is
returned unchanged. -/
theorem c7_no_anchor_key (url : String) (p : List Char)
    (hna : findSub wpAnchor url.toList = none)
    (hne : pyStrip url.toList ≠ [])
    (hp : urlparsePath url.toList = some p) :
    (splitext (lstripSlash p)).1 ++ (splitext (lstripSlash p)).2 =
      lstripSlash p
    ∧ generate_s3_key_l url.toList =
        Except.ok
          (if pyLower (splitext (lstripSlash p)).2 ∈ imageExts
           then (splitext (lstripSlash p)).1 ++ ".jpg".toList
           else lstripSlash p) := by
  refine ⟨splitext_append _, ?_⟩
  simp only [generate_s3_key_l, extract_s3_path_l, hna, if_neg hne, hp]
  split <;> simp_all

/-- C7 (witness): the theorem applied to `https://site/a/b.PNG`, whose
path is `/a/b.PNG` and whose extension is recognized, so the key is
`a/b.jpg`. -/
theorem c7_no_anchor_key_witness :
    ((splitext (lstripSlash "/a/b.PNG".toList)).1 ++
        (splitext (lstripSlash "/a/b.PNG".toList)).2 =
      lstripSlash "/a/b.PNG".toList
    ∧ generate_s3_key_l "https://site/a/b.PNG".toList =
        Except.ok
          (if pyLower (splitext (lstripSlash "/a/b.PNG".toList)).2 ∈ imageExts
           then (splitext (lstripSlash "/a/b.PNG".toList)).1 ++ ".jpg".toList
           else lstripSlash "/a/b.PNG".toList))
    ∧ generate_s3_key "https://site/a/b.PNG" = Except.ok "a/b.jpg" :=
  ⟨c7_no_anchor_key "https://site/a/b.PNG" "/a/b.PNG".toList
      (by decide) (by decide) (by decide),
   by decide⟩

/-! ## Probe lemmas -/

/-- A variant whose metadata lookup answers 404 is passed over. -/
theorem tryVariation_head404 (cfg : Config) (w : S3World) (u : String)
    (h : w.head u = HeadRes.clientError 404) :
    tryVariation cfg w u = none := by
  simp [tryVariation, h]

/-- A variant whose metadata lookup succeeds is conclusive, and the
conclusion is decided by the public reachability status alone. -/
theorem tryVariation_found (cfg : Config) (w : S3World) (u : String) (n : Nat)
    (hok : w.head u = HeadRes.ok)
    (hh : w.http (get_s3_url cfg u) = HttpRes.status n) :
    tryVariation cfg w u =
      some (if n = 200 then ⟨false, 200, "EXISTS_ACCESSIBLE", u⟩
        else ⟨true, n, "EXISTS_" ++ toString n ++ "_REUPLOAD", u⟩) := by
  unfold tryVariation
  rw [hok, hh]
  dsimp only
  by_cases h200 : n = 200
  · subst h200; simp
  · rw [if_neg h200, if_neg h200]
    by_cases h403 : n = 403
    · subst h403
      rw [if_pos rfl]
      have : "EXISTS_403_REUPLOAD" = "EXISTS_" ++ toString (403 : Nat) ++ "_REUPLOAD" := by
        decide
      rw [this]
    · rw [if_neg h403]

/-- The variant loop probes exactly the passed-over variants and the
first conclusive one, and returns that conclusion. -/
theorem checkLoop_split (cfg : Config) (w : S3World) (l1 : List String)
    (v : String) (l2 : List String) (r : CheckResult)
    (h404 : ∀ u ∈ l1, tryVariation cfg w u = none)
    (hv : tryVariation cfg w v = some r) :
    checkLoop cfg w (l1 ++ v :: l2) = (l1 ++ [v], some r) := by
  induction l1 with
  | nil => simp [checkLoop, hv]
  | cons a t ih =>
    have ha := h404 a (List.mem_cons_self _ _)
    have ht := ih fun u hu => h404 u (List.mem_cons_of_mem _ hu)
    simp [checkLoop, ha, ht]

/-! ## C1 — metadata success is conclusive -/

/-- C1: when the metadata lookup succeeds on a variant `v` (every earlier
variant having answered 404), the probe stops at `v`: no later variant is
probed, HTTP 200 on the reachability check yields the accessible result
(`needs_upload = false`), and any non-200 status yields the
exists-but-inaccessible result carrying that status with
`needs_upload = true`. -/
theorem c1_probe_conclusive (cfg : Config) (w : S3World) (key : String)
    (l1 l2 : List String) (v : String) (n : Nat)
    (hsplit : uniqueVariations key = l1 ++ v :: l2)
    (h404 : ∀ u ∈ l1, w.head u = HeadRes.clientError 404)
    (hok : w.head v = HeadRes.ok)
    (hhttp : w.http (get_s3_url cfg v) = HttpRes.status n) :
    (check_s3_object_exists_and_accessible cfg w key).2 = l1 ++ [v]
    ∧ (check_s3_object_exists_and_accessible cfg w key).1 =
        (if n = 200 then ⟨false, 200, "EXISTS_ACCESSIBLE", v⟩
         else ⟨true, n, "EXISTS_" ++ toString n ++ "_REUPLOAD", v⟩)
    ∧ (n ≠ 200 →
        (check_s3_object_exists_and_accessible cfg w key).1.needs_upload = true
        ∧ (check_s3_object_exists_and_accessible cfg w key).1.status_code = n
        ∧ (check_s3_object_exists_and_accessible cfg w key).1.actual_key = v) := by
  have hnone : ∀ u ∈ l1, tryVariation cfg w u = none := fun u hu =>
    tryVariation_head404 cfg w u (h404 u hu)
  have hfound := tryVariation_found cfg w v n hok hhttp
  have hloop := checkLoop_split cfg w l1 v l2 _ hnone hfound
  unfold check_s3_object_exists_and_accessible
  rw [hsplit, hloop]
  refine ⟨rfl, rfl, fun hne => ?_⟩
  simp [if_neg hne]

/-- C1 (witness): in a store holding only the percent-encoded variant
`a%20b` of the key `a b`, with a public endpoint answering 200, the probe
passes over `a b`, stops at `a%20b` and reports it accessible. -/
theorem c1_probe_conclusive_witness :
    (check_s3_object_exists_and_accessible cfgDry wEnc "a b").2 = ["a b", "a%20b"]
    ∧ (check_s3_object_exists_and_accessible cfgDry wEnc "a b").1 =
        ⟨false, 200, "EXISTS_ACCESSIBLE", "a%20b"⟩
    ∧ ((200 : Nat) ≠ 200 →
        (check_s3_object_exists_and_accessible cfgDry wEnc "a b").1.needs_upload = true
        ∧ (check_s3_object_exists_and_accessible cfgDry wEnc "a b").1.status_code = 200
        ∧ (check_s3_object_exists_and_accessible cfgDry wEnc "a b").1.actual_key = "a%20b") :=
  c1_probe_conclusive cfgDry wEnc "a b" ["a b"] [] "a%20b" 200
    (by decide) (by decide) (by decide) (by decide)

/-- A conclusive variant result with `needs_upload = false` can only come
from the HTTP-200 branch. -/
theorem tryVariation_not_needs (cfg : Config) (w : S3World) (u : String)
    (r : CheckResult) (h : tryVariation cfg w u = some r)
    (hn : r.needs_upload = false) :
    r = ⟨false, 200, "EXISTS_ACCESSIBLE", u⟩ := by
  unfold tryVariation at h
  cases hw : w.head u <;> rw [hw] at h <;> dsimp only at h
  case ok =>
    cases hh : w.http (get_s3_url cfg u) <;> rw [hh] at h <;> dsimp only at h
    case status code =>
      split_ifs at h <;> rw [Option.some.injEq] at h <;> subst h <;> simp_all
    case reqExc => rw [Option.some.injEq] at h; subst h; simp_all
    case exc => rw [Option.some.injEq] at h; subst h; simp_all
  case clientError code =>
    split_ifs at h
    all_goals
      first
      | exact Option.noConfusion h
      | (rw [Option.some.injEq] at h; subst h; simp_all)
  case exc => rw [Option.some.injEq] at h; subst h; simp_all

/-- A conclusive loop answer comes from one of the listed variants. -/
theorem checkLoop_some (cfg : Config) (w : S3World) :
    ∀ (l : List String) (r : CheckResult),
      (checkLoop cfg w l).2 = some r → ∃ u ∈ l, tryVariation cfg w u = some r := by
  intro l
  induction l with
  | nil => intro r h; simp [checkLoop] at h
  | cons k rest ih =>
    intro r h
    unfold checkLoop at h
    cases htv : tryVariation cfg w k <;> rw [htv] at h <;> dsimp only at h
    · obtain ⟨u, hu, hru⟩ := ih r h
      exact ⟨u, List.mem_cons_of_mem _ hu, hru⟩
    · cases h
      exact ⟨k, List.mem_cons_self _ _, htv⟩

/-- A probe result with `needs_upload = false` is the accessible result:
HTTP 200 and the `EXISTS_ACCESSIBLE` classification. -/
theorem check_accessible_shape (cfg : Config) (w : S3World) (k : String)
    (h : (check_s3_object_exists_and_accessible cfg w k).1.needs_upload = false) :
    (check_s3_object_exists_and_accessible cfg w k).1 =
      ⟨false, 200, "EXISTS_ACCESSIBLE",
        (check_s3_object_exists_and_accessible cfg w k).1.actual_key⟩ := by
  rcases hc : (checkLoop cfg w (uniqueVariations k)).2 with _ | val
  · have hd : (check_s3_object_exists_and_accessible cfg w k).1 =
        ⟨true, 404, "NOT_EXISTS", k⟩ := by
      unfold check_s3_object_exists_and_accessible
      rw [hc]
      rfl
    rw [hd] at h
    cases h
  · have he : (check_s3_object_exists_and_accessible cfg w k).1 = val := by
      unfold check_s3_object_exists_and_accessible
      rw [hc]
      rfl
    obtain ⟨u, _, htv⟩ := checkLoop_some cfg w _ _ hc
    have hr := tryVariation_not_needs cfg w u val htv (he ▸ h)
    rw [he, hr]

/-! ## C3 — accessible items are accepted without any collaborator call -/

/-- C3: when the probe reports the object accessible
(`needs_upload = false`), no fetch/normalize and no upload happens, and
the emitted outcome is `EXISTS_OK` with HTTP 200, recording the probe's
matched key — not the originally derived one — both as the key and in
the public URL. -/
theorem c3_accessible_no_upload (cfg : Config) (env : ProcEnv) (url key : String)
    (hkey : generate_s3_key url = Except.ok key)
    (hacc : (check_s3_object_exists_and_accessible cfg env.world key).1.needs_upload = false) :
    (check_s3_object_exists_and_accessible cfg env.world key).1.status_code = 200
    ∧ process_single_image cfg env url =
      (⟨(check_s3_object_exists_and_accessible cfg env.world key).1.actual_key,
        "EXISTS_OK",
        get_s3_url cfg (check_s3_object_exists_and_accessible cfg env.world key).1.actual_key,
        200⟩,
       ⟨[], [], [key]⟩) := by
  have hshape := check_accessible_shape cfg env.world key hacc
  refine ⟨by rw [hshape], ?_⟩
  unfold process_single_image processCore
  rw [hkey]
  dsimp only
  rw [hshape]
  dsimp only
  rfl

/-- C3 (witness): with the store holding only `a%20b.jpg` and the URL
`https://h/a b.png` deriving the key `a b.jpg`, the item is accepted as
existing under the matched encoded key, with no collaborator call. -/
theorem c3_accessible_no_upload_witness :
    (check_s3_object_exists_and_accessible cfgDry envAcc.world "a b.jpg").1.status_code = 200
    ∧ process_single_image cfgDry envAcc "https://h/a b.png" =
      (⟨(check_s3_object_exists_and_accessible cfgDry envAcc.world "a b.jpg").1.actual_key,
        "EXISTS_OK",
        get_s3_url cfgDry (check_s3_object_exists_and_accessible cfgDry envAcc.world "a b.jpg").1.actual_key,
        200⟩,
       ⟨[], [], ["a b.jpg"]⟩) :=
  c3_accessible_no_upload cfgDry envAcc "https://h/a b.png" "a b.jpg"
    (by decide) (by decide)

/-! ## C4 — live upload happens once and is re-verified once -/

/-- C4: in live-upload mode, an item the probe classifies as needing
upload is fetched-and-normalized once and uploaded once to the probe's
matched key, and the existence probe is re-run exactly once on that same
key (the probe-call trace is `[derived key, matched key]`, with no retry
loop); a re-probe reporting accessible (HTTP 200) yields `UPLOADED_OK`,
any other re-probe result yields the upload-verify-failed status carrying
the re-probe's status code. -/
theorem c4_upload_once_and_verify (cfg : Config) (env : ProcEnv)
    (url key : String) (img : Nat) (w2 : S3World)
    (hlive : cfg.dry_run = false)
    (hkey : generate_s3_key url = Except.ok key)
    (hneeds : (check_s3_object_exists_and_accessible cfg env.world key).1.needs_upload = true)
    (hfetch : env.fetch url = Except.ok img)
    (hupload : env.upload
      (check_s3_object_exists_and_accessible cfg env.world key).1.actual_key img =
      Except.ok w2) :
    (process_single_image cfg env url).2 =
      ⟨[url], [(check_s3_object_exists_and_accessible cfg env.world key).1.actual_key],
       [key, (check_s3_object_exists_and_accessible cfg env.world key).1.actual_key]⟩
    ∧ ((check_s3_object_exists_and_accessible cfg w2
          (check_s3_object_exists_and_accessible cfg env.world key).1.actual_key).1.needs_upload = false →
        process_single_image cfg env url =
          (⟨(check_s3_object_exists_and_accessible cfg env.world key).1.actual_key,
            "UPLOADED_OK",
            get_s3_url cfg (check_s3_object_exists_and_accessible cfg env.world key).1.actual_key,
            200⟩,
           ⟨[url], [(check_s3_object_exists_and_accessible cfg env.world key).1.actual_key],
            [key, (check_s3_object_exists_and_accessible cfg env.world key).1.actual_key]⟩))
    ∧ ((check_s3_object_exists_and_accessible cfg w2
          (check_s3_object_exists_and_accessible cfg env.world key).1.actual_key).1.needs_upload = true →
        process_single_image cfg env url =
          (⟨(check_s3_object_exists_and_accessible cfg env.world key).1.actual_key,
            "UPLOADED_VERIFY_FAIL_" ++
              toString (check_s3_object_exists_and_accessible cfg w2
                (check_s3_object_exists_and_accessible cfg env.world key).1.actual_key).1.status_code,
            get_s3_url cfg (check_s3_object_exists_and_accessible cfg env.world key).1.actual_key,
            (check_s3_object_exists_and_accessible cfg w2
              (check_s3_object_exists_and_accessible cfg env.world key).1.actual_key).1.status_code⟩,
           ⟨[url], [(check_s3_object_exists_and_accessible cfg env.world key).1.actual_key],
            [key, (check_s3_object_exists_and_accessible cfg env.world key).1.actual_key]⟩)) := by
  have hcore : processCore cfg env url =
      (if (check_s3_object_exists_and_accessible cfg w2
            (check_s3_object_exists_and_accessible cfg env.world key).1.actual_key).1.needs_upload = false
          ∧ (check_s3_object_exists_and_accessible cfg w2
            (check_s3_object_exists_and_accessible cfg env.world key).1.actual_key).1.status_code = 200
       then
        (Except.ok ⟨(check_s3_object_exists_and_accessible cfg env.world key).1.actual_key,
          "UPLOADED_OK",
          get_s3_url cfg (check_s3_object_exists_and_accessible cfg env.world key).1.actual_key,
          (check_s3_object_exists_and_accessible cfg w2
            (check_s3_object_exists_and_accessible cfg env.world key).1.actual_key).1.status_code⟩,
         ⟨[url], [(check_s3_object_exists_and_accessible cfg env.world key).1.actual_key],
          [key, (check_s3_object_exists_and_accessible cfg env.world key).1.actual_key]⟩)
       else
        (Except.ok ⟨(check_s3_object_exists_and_accessible cfg env.world key).1.actual_key,
          "UPLOADED_VERIFY_FAIL_" ++
            toString (check_s3_object_exists_and_accessible cfg w2
              (check_s3_object_exists_and_accessible cfg env.world key).1.actual_key).1.status_code,
          get_s3_url cfg (check_s3_object_exists_and_accessible cfg env.world key).1.actual_key,
          (check_s3_object_exists_and_accessible cfg w2
            (check_s3_object_exists_and_accessible cfg env.world key).1.actual_key).1.status_code⟩,
         ⟨[url], [(check_s3_object_exists_and_accessible cfg env.world key).1.actual_key],
          [key, (check_s3_object_exists_and_accessible cfg env.world key).1.actual_key]⟩)) := by
    unfold processCore
    rw [hkey]
    dsimp only
    rw [if_neg (by simp [hneeds]), if_neg (by simp [hlive]), hfetch]
    dsimp only
    rw [hupload]
  refine ⟨?_, fun hv => ?_, fun hv => ?_⟩
  · unfold process_single_image
    rw [hcore]
    by_cases hc : (check_s3_object_exists_and_accessible cfg w2
        (check_s3_object_exists_and_accessible cfg env.world key).1.actual_key).1.needs_upload = false
      ∧ (check_s3_object_exists_and_accessible cfg w2
        (check_s3_object_exists_and_accessible cfg env.world key).1.actual_key).1.status_code = 200
    · simp only [if_pos hc]
    · simp only [if_neg hc]
  · have hsh := check_accessible_shape cfg w2
      (check_s3_object_exists_and_accessible cfg env.world key).1.actual_key hv
    unfold process_single_image
    rw [hcore, if_pos ⟨hv, by rw [hsh]⟩]
    dsimp only
    rw [hsh]
  · unfold process_single_image
    rw [hcore, if_neg (by simp [hv])]

/-- C4 (witness): uploading a missing `p/img.jpg` in live mode against a
store that serves everything after the upload: the item is fetched and
uploaded once, re-probed once on the same key, and reported
`UPLOADED_OK`. -/
theorem c4_upload_once_and_verify_witness :
    (process_single_image cfgLive envLiveOk "https://h/p/img.png").2 =
      ⟨["https://h/p/img.png"], ["p/img.jpg"], ["p/img.jpg", "p/img.jpg"]⟩
    ∧ ((check_s3_object_exists_and_accessible cfgLive wFull "p/img.jpg").1.needs_upload = false →
        process_single_image cfgLive envLiveOk "https://h/p/img.png" =
          (⟨"p/img.jpg", "UPLOADED_OK", get_s3_url cfgLive "p/img.jpg", 200⟩,
           ⟨["https://h/p/img.png"], ["p/img.jpg"], ["p/img.jpg", "p/img.jpg"]⟩))
    ∧ ((check_s3_object_exists_and_accessible cfgLive wFull "p/img.jpg").1.needs_upload = true →
        process_single_image cfgLive envLiveOk "https://h/p/img.png" =
          (⟨"p/img.jpg",
            "UPLOADED_VERIFY_FAIL_" ++
              toString (check_s3_object_exists_and_accessible cfgLive wFull "p/img.jpg").1.status_code,
            get_s3_url cfgLive "p/img.jpg",
            (check_s3_object_exists_and_accessible cfgLive wFull "p/img.jpg").1.status_code⟩,
           ⟨["https://h/p/img.png"], ["p/img.jpg"], ["p/img.jpg", "p/img.jpg"]⟩)) :=
  c4_upload_once_and_verify cfgLive envLiveOk "https://h/p/img.png" "p/img.jpg" 1 wFull
    rfl (by decide) (by decide) rfl rfl

/-! ## C5 — dry-run over an existing-but-403 object -/

/-- C5 (counterexample): with the object present but publicly blocked
(403) in dry-run mode, the outcome's status label is
`WOULD_UPLOAD_EXISTS_403_REUPLOAD` — it is *not* the exact string
`WOULD_UPLOAD_EXISTS_403` the claim states (no upload occurs and the
HTTP status is 403, as claimed). -/
theorem c5_counterexample :
    cfgDry.dry_run = true
    ∧ (check_s3_object_exists_and_accessible cfgDry envBlocked.world "p/img.jpg").1 =
        ⟨true, 403, "EXISTS_403_REUPLOAD", "p/img.jpg"⟩
    ∧ (process_single_image cfgDry envBlocked "https://h/p/img.png").2.uploadCalls = []
    ∧ (process_single_image cfgDry envBlocked "https://h/p/img.png").1.response_code = 403
    ∧ (process_single_image cfgDry envBlocked "https://h/p/img.png").1.status ≠
        "WOULD_UPLOAD_EXISTS_403" := by decide

/-- C5 (amended): when the probe finds the object existing but blocked
with 403 and the run is simulate-only, no collaborator is called (no
fetch, no upload), the outcome's HTTP status is 403, and its status label
is `WOULD_UPLOAD_EXISTS_403_REUPLOAD` — which starts with the would-upload
marker and contains the 403 indication. -/
theorem c5_dry_run_403 (cfg : Config) (env : ProcEnv) (url key mkey : String)
    (hdry : cfg.dry_run = true)
    (hkey : generate_s3_key url = Except.ok key)
    (hchk : (check_s3_object_exists_and_accessible cfg env.world key).1 =
      ⟨true, 403, "EXISTS_403_REUPLOAD", mkey⟩) :
    process_single_image cfg env url =
      (⟨mkey, "WOULD_UPLOAD_EXISTS_403_REUPLOAD", get_s3_url cfg mkey, 403⟩,
       ⟨[], [], [key]⟩)
    ∧ pyStartsWith "WOULD_UPLOAD_EXISTS_403_REUPLOAD" "WOULD_UPLOAD" = true
    ∧ strContains "WOULD_UPLOAD_EXISTS_403_REUPLOAD" "403" = true := by
  refine ⟨?_, by decide, by decide⟩
  have hcore : processCore cfg env url =
      (Except.ok ⟨mkey, "WOULD_UPLOAD_" ++ "EXISTS_403_REUPLOAD", get_s3_url cfg mkey, 403⟩,
       ⟨[], [], [key]⟩) := by
    unfold processCore
    rw [hkey]
    dsimp only
    rw [hchk]
    dsimp only
    rw [if_neg (by simp), if_pos (by simp [hdry])]
  unfold process_single_image
  rw [hcore]
  have : ("WOULD_UPLOAD_" ++ "EXISTS_403_REUPLOAD" : String) =
      "WOULD_UPLOAD_EXISTS_403_REUPLOAD" := by decide
  rw [this]

/-- C5 (witness): the amended theorem applied to a store answering 403
for the key `p/img.jpg` derived from `https://h/p/img.png`. -/
theorem c5_dry_run_403_witness :
    (process_single_image cfgDry envBlocked "https://h/p/img.png" =
      (⟨"p/img.jpg", "WOULD_UPLOAD_EXISTS_403_REUPLOAD",
        get_s3_url cfgDry "p/img.jpg", 403⟩,
       ⟨[], [], ["p/img.jpg"]⟩)
    ∧ pyStartsWith "WOULD_UPLOAD_EXISTS_403_REUPLOAD" "WOULD_UPLOAD" = true
    ∧ strContains "WOULD_UPLOAD_EXISTS_403_REUPLOAD" "403" = true) :=
  c5_dry_run_403 cfgDry envBlocked "https://h/p/img.png" "p/img.jpg" "p/img.jpg"
    rfl (by decide) (by decide)

/-! ## Driver-loop lemmas -/

/-- The driver emits one outcome per row. -/
theorem mainLoop_length (cfg : Config) (env : Nat → ProcEnv) :
    ∀ (rows : List (Option String)) (i : Nat),
      (mainLoop cfg env i rows).1.length = rows.length := by
  intro rows
  induction rows with
  | nil => intro i; rfl
  | cons row rest ih =>
    intro i
    by_cases hs : isSkipRow row <;> simp [mainLoop, hs, ih (i + 1)]

/-- The `j`-th outcome is the processing of the `j`-th row alone. -/
theorem mainLoop_get (cfg : Config) (env : Nat → ProcEnv) :
    ∀ (rows : List (Option String)) (i j : Nat),
      (mainLoop cfg env i rows).1[j]? =
        (rows[j]?).map fun row => processRow cfg (env (i + j)) row := by
  intro rows
  induction rows with
  | nil => intro i j; rfl
  | cons row rest ih =>
    intro i j
    cases j with
    | zero => simp [mainLoop]
    | succ jj =>
      have hn : i + (jj + 1) = (i + 1) + jj := by omega
      simp only [mainLoop, List.getElem?_cons_succ, hn]
      exact ih (i + 1) jj

/-- Each processed row's status bumps the counters' total by exactly one. -/
theorem countRow_total (st : String) (c : Counters) :
    (countRow st c).uploadedCount + (countRow st c).existsCount +
      (countRow st c).reuploadCount + (countRow st c).errorCount =
    (c.uploadedCount + c.existsCount + c.reuploadCount + c.errorCount) + 1 := by
  unfold countRow
  split_ifs <;> dsimp only <;> omega

/-- The re-upload guard implies the outer upload guard (a label starting
with `WOULD_UPLOAD_EXISTS_403` starts with `WOULD_UPLOAD`). -/
theorem reuploadGuard_imp (st : String)
    (h : (pyStartsWith st "WOULD_UPLOAD_EXISTS_403" ||
      (pyStartsWith st "UPLOADED" && strContains st "403")) = true) :
    (pyStartsWith st "UPLOADED" || pyStartsWith st "WOULD_UPLOAD") = true := by
  rw [Bool.or_eq_true] at h ⊢
  rcases h with h1 | h2
  · right
    unfold pyStartsWith at h1 ⊢
    rw [List.isPrefixOf_iff_prefix] at h1 ⊢
    exact List.IsPrefix.trans ⟨"_EXISTS_403".toList, by decide⟩ h1
  · rw [Bool.and_eq_true] at h2
    exact Or.inl h2.1

/-! ## C8 — one outcome per row, errors isolated -/

/-- C8: the driver emits exactly one outcome per input row; the `j`-th
outcome is a function of the `j`-th row alone, so one row's failure never
prevents processing of any later row; and whenever the per-item body
raises internally, the emitted outcome carries the `ERROR:` label with
empty key and HTTP status 0 instead of being omitted. -/
theorem c8_one_outcome_per_row (cfg : Config) (env : Nat → ProcEnv) (i : Nat)
    (rows : List (Option String)) :
    (mainLoop cfg env i rows).1.length = rows.length
    ∧ (∀ j : Nat, (mainLoop cfg env i rows).1[j]? =
        (rows[j]?).map fun row => processRow cfg (env (i + j)) row)
    ∧ (∀ (env' : ProcEnv) (url e : String),
        (processCore cfg env' url).1 = Except.error e →
        (process_single_image cfg env' url).1 = ⟨"", "ERROR: " ++ e, "", 0⟩) := by
  refine ⟨mainLoop_length cfg env rows i, fun j => mainLoop_get cfg env rows i j, ?_⟩
  intro env' url e h
  unfold process_single_image
  rw [h]

/-! ## C9 — the public URL double-encodes matched encoded variants -/

/-- C9 (counterexample): for the derived key `a b` the probe matches the
percent-encoded variant `a%20b` (which contains `%`); the reachability /
persisted URL for it is `…/a%2520b`, whose path *does* percent-decode to
the stored key `a%20b` — refuting the claim that the URL checked and
persisted is not the URL whose path decodes to the stored key. -/
theorem c9_counterexample :
    (check_s3_object_exists_and_accessible cfgDry wEnc "a b").1.actual_key = "a%20b"
    ∧ strContains "a%20b" "%" = true
    ∧ get_s3_url cfgDry "a%20b" = "https://b.s3.r.amazonaws.com/a%2520b"
    ∧ unquoteStr "a%2520b" = "a%20b" := by decide

/-- C9 (amended): the public URL is the fixed
`https://{bucket}.s3.{region}.amazonaws.com/` prefix followed by the
percent-encoding of the key with `/` left unescaped; when the probe
matches the percent-encoded variant of a key, the reachability-check and
recorded URL encode that variant a second time (`%` becomes `%25`) — and
this double encoding is consistent: the URL's path percent-decodes to the
stored (matched) key itself, though not to the originally derived key. -/
theorem c9_double_encoding (cfg : Config) (key : String) :
    get_s3_url cfg key =
      "https://" ++ cfg.bucket_name ++ ".s3." ++ cfg.aws_region ++
        ".amazonaws.com/" ++ quoteSlash key
    ∧ (check_s3_object_exists_and_accessible cfgDry wEnc "a b").1.actual_key = "a%20b"
    ∧ quoteSlash "a%20b" = "a%2520b"
    ∧ unquoteStr (quoteSlash "a%20b") = "a%20b"
    ∧ unquoteStr (quoteSlash "a%20b") ≠ "a b" :=
  ⟨rfl, by decide, by decide, by decide, by decide⟩

/-! ## C10 — counter bookkeeping -/

/-- C10: each input row bumps exactly one of the four counters, so their
sum equals the number of rows processed; a skipped (missing/placeholder)
row is counted in the errors counter; and a processed row is counted as a
re-upload exactly when its label starts with `WOULD_UPLOAD_EXISTS_403` or
starts with `UPLOADED` while containing `403`. -/
theorem c10_counter_partition (cfg : Config) (env : Nat → ProcEnv) (i : Nat)
    (rows : List (Option String)) :
    ((mainLoop cfg env i rows).2.uploadedCount +
      (mainLoop cfg env i rows).2.existsCount +
      (mainLoop cfg env i rows).2.reuploadCount +
      (mainLoop cfg env i rows).2.errorCount = rows.length)
    ∧ (∀ (row : Option String) (rest : List (Option String)),
        isSkipRow row = true →
        (mainLoop cfg env i (row :: rest)).2 =
          { (mainLoop cfg env (i + 1) rest).2 with
            errorCount := (mainLoop cfg env (i + 1) rest).2.errorCount + 1 })
    ∧ (∀ (st : String) (c : Counters),
        (countRow st c).reuploadCount =
          if (pyStartsWith st "WOULD_UPLOAD_EXISTS_403" ||
              (pyStartsWith st "UPLOADED" && strContains st "403")) = true
          then c.reuploadCount + 1 else c.reuploadCount) := by
  refine ⟨?_, ?_, ?_⟩
  · induction rows generalizing i with
    | nil => rfl
    | cons row rest ih =>
      have hr := ih (i + 1)
      simp only [mainLoop, List.length_cons]
      by_cases hs : isSkipRow row = true
      · rw [if_pos hs]
        dsimp only
        omega
      · rw [if_neg hs]
        have ht := countRow_total (processRow cfg (env i) row).status
          (mainLoop cfg env (i + 1) rest).2
        omega
  · intro row rest hs
    simp [mainLoop, hs]
  · intro st c
    by_cases hin : (pyStartsWith st "WOULD_UPLOAD_EXISTS_403" ||
        (pyStartsWith st "UPLOADED" && strContains st "403")) = true
    · rw [if_pos hin]
      unfold countRow
      rw [if_pos (reuploadGuard_imp st hin), if_pos hin]
    · rw [if_neg hin]
      unfold countRow
      split_ifs <;> rfl

end ImgS3
